import Mathlib

/-!
Verification of the GPS track ingestion / normalization pipeline of this
repository against its specification.

The development shallowly embeds the two pipeline scripts:

* `src/a4/functions.py` : `read_gpx_file`, the module-level file loop,
  `pd.concat`, the Salzburg bounding-box filter and the filtering part of
  `plot_map`.
* `src/facets_test.py` : the GPX / FIT processing loop with its cumulative
  `dist` computation, and the module-level empty-list check.

Pandas floating-point cells are modelled as `Option ℚ` where `none` plays the
role of `NaN` (every comparison against `NaN` is false); real-valued
quantities that flow through `math.sqrt` are modelled over `ℝ`.
-/

/-! ## Data model for `src/a4/functions.py`

A row of the DataFrame produced by `read_gpx_file` has columns
`lat, lon, ele, time, name` (no `dist` column in this script).  Coordinate
and elevation cells are `Option ℚ` (`none` = `NaN` / missing), `time` is an
abstract optional instant, `name` the source file's base name. -/

structure Row where
  lat : Option ℚ
  lon : Option ℚ
  ele : Option ℚ
  time : Option ℤ
  name : String
deriving DecidableEq, Repr

/-- A DataFrame is its ordered list of rows. -/
abbrev Table := List Row

/-- Pandas semantics of `series >= m` on one cell: `NaN`-valued cells compare
false, otherwise the comparison is the rational one. -/
def pdGe (v : Option ℚ) (m : ℚ) : Bool :=
  match v with
  | none => false
  | some x => m ≤ x

/-- Pandas semantics of `series <= m` on one cell: `NaN`-valued cells compare
false, otherwise the comparison is the rational one. -/
def pdLe (v : Option ℚ) (m : ℚ) : Bool :=
  match v with
  | none => false
  | some x => x ≤ m

/-- The four optional bounds taken by `plot_map`
(`lon_min`, `lon_max`, `lat_min`, `lat_max`, each defaulting to `None`). -/
structure Bounds where
  lon_min : Option ℚ
  lon_max : Option ℚ
  lat_min : Option ℚ
  lat_max : Option ℚ
deriving DecidableEq, Repr

/-- One conditional filtering statement of `plot_map`:
`if bound is not None: df = df[df[col] OP bound]`. -/
def filterStep (df : Table) (bound : Option ℚ) (test : ℚ → Row → Bool) : Table :=
  match bound with
  | none => df
  | some m => df.filter (test m)

/-- The filtering prefix of `plot_map` (`src/a4/functions.py`, lines 199-210):
the four conditional boolean-mask selections applied in source order
(`lon_min`, then `lon_max`, then `lat_min`, then `lat_max`). -/
def plot_map_filter (b : Bounds) (df : Table) : Table :=
  filterStep
    (filterStep
      (filterStep
        (filterStep df b.lon_min (fun m r => pdGe r.lon m))
        b.lon_max (fun m r => pdLe r.lon m))
      b.lat_min (fun m r => pdGe r.lat m))
    b.lat_max (fun m r => pdLe r.lat m)

/-- The combined boolean mask equivalent to the four sequential selections:
true on a row iff every present bound's comparison holds on that row. -/
def boundsMask (b : Bounds) (r : Row) : Bool :=
  (match b.lon_min with | none => true | some m => pdGe r.lon m) &&
  (match b.lon_max with | none => true | some m => pdLe r.lon m) &&
  (match b.lat_min with | none => true | some m => pdGe r.lat m) &&
  (match b.lat_max with | none => true | some m => pdLe r.lat m)

/-- Satisfaction of the specification's bounding invariant, written from the
spec's words: each bound that is present is satisfied with an inclusive
comparison on an actually-present coordinate value; an absent bound imposes
no constraint. -/
def specSatisfies (b : Bounds) (r : Row) : Prop :=
  (∀ m, b.lon_min = some m → ∃ v, r.lon = some v ∧ m ≤ v) ∧
  (∀ m, b.lon_max = some m → ∃ v, r.lon = some v ∧ v ≤ m) ∧
  (∀ m, b.lat_min = some m → ∃ v, r.lat = some v ∧ m ≤ v) ∧
  (∀ m, b.lat_max = some m → ∃ v, r.lat = some v ∧ v ≤ m)

/-- The Salzburg bounding-box constants of `src/a4/functions.py`. -/
def LON_MIN : ℚ := 129/10
def LON_MAX : ℚ := 1308/100
def LAT_MIN : ℚ := 4772/100
def LAT_MAX : ℚ := 4782/100

/-- The module-level filter building `df_salzburg`
(`src/a4/functions.py`, lines 121-124): one boolean mask conjoining the four
inclusive comparisons. -/
def df_salzburg (df_all : Table) : Table :=
  df_all.filter (fun r =>
    pdGe r.lon LON_MIN && pdLe r.lon LON_MAX &&
    pdGe r.lat LAT_MIN && pdLe r.lat LAT_MAX)

/-! ### Filter lemmas -/

theorem filterStep_sublist (df : Table) (bound : Option ℚ) (test : ℚ → Row → Bool) :
    (filterStep df bound test).Sublist df := by
  cases bound with
  | none => exact List.Sublist.refl df
  | some m => exact List.filter_sublist df

theorem plot_map_filter_eq_filter (b : Bounds) (df : Table) :
    plot_map_filter b df = df.filter (boundsMask b) := by
  unfold plot_map_filter boundsMask filterStep
  cases b.lon_min <;> cases b.lon_max <;> cases b.lat_min <;> cases b.lat_max <;>
    simp [List.filter_filter, Bool.and_comm, Bool.and_assoc, Bool.and_left_comm]

theorem boundsMask_iff_specSatisfies (b : Bounds) (r : Row) :
    boundsMask b r = true ↔ specSatisfies b r := by
  unfold boundsMask specSatisfies pdGe pdLe
  cases hm : b.lon_min <;> cases hM : b.lon_max <;>
    cases km : b.lat_min <;> cases kM : b.lat_max <;>
      cases hlon : r.lon <;> cases hlat : r.lat <;>
        simp [hm, hM, km, kM, hlon, hlat, and_assoc]

theorem df_salzburg_eq_plot_map_filter (df_all : Table) :
    df_salzburg df_all =
      plot_map_filter ⟨some LON_MIN, some LON_MAX, some LAT_MIN, some LAT_MAX⟩ df_all := by
  rw [plot_map_filter_eq_filter]
  unfold df_salzburg boundsMask
  simp [Bool.and_assoc]

/-! ### Claim C2 -/

/-- Claim C2: for every dataset and every bounding box with independently
optional bounds, a row is in the filtered output iff it satisfies every
present bound with inclusive comparisons (an absent bound imposing no
constraint), and the output rows form a sub-sequence of the input rows. -/
theorem C2_filter_membership (b : Bounds) (df : Table) :
    (plot_map_filter b df).Sublist df ∧
    ∀ r : Row, r ∈ plot_map_filter b df ↔ r ∈ df ∧ specSatisfies b r := by
  rw [plot_map_filter_eq_filter]
  refine ⟨List.filter_sublist df, fun r => ?_⟩
  rw [List.mem_filter, boundsMask_iff_specSatisfies]

/-- Concrete instance of C2: the membership equivalence and sub-sequence
property evaluated on a one-row table and a box with only `lon_min` present. -/
theorem C2_filter_membership_witness :
    (plot_map_filter ⟨some 1, none, none, none⟩
        [⟨some 2, some 3, none, none, "a"⟩]).Sublist
      [⟨some 2, some 3, none, none, "a"⟩] ∧
    ((⟨some 2, some 3, none, none, "a"⟩ : Row) ∈
        plot_map_filter ⟨some 1, none, none, none⟩
          [⟨some 2, some 3, none, none, "a"⟩] ↔
      (⟨some 2, some 3, none, none, "a"⟩ : Row) ∈
          [(⟨some 2, some 3, none, none, "a"⟩ : Row)] ∧
        specSatisfies ⟨some 1, none, none, none⟩ ⟨some 2, some 3, none, none, "a"⟩) :=
  ⟨(C2_filter_membership ⟨some 1, none, none, none⟩
      [⟨some 2, some 3, none, none, "a"⟩]).1,
   (C2_filter_membership ⟨some 1, none, none, none⟩
      [⟨some 2, some 3, none, none, "a"⟩]).2 _⟩

/-! ### Claim C7 -/

/-- Claim C7: the geographic filter is idempotent: applying `plot_map`'s
filtering step twice with the same bounds equals applying it once. -/
theorem C7_filter_idempotent (b : Bounds) (df : Table) :
    plot_map_filter b (plot_map_filter b df) = plot_map_filter b df := by
  simp [plot_map_filter_eq_filter, List.filter_filter]

/-! ### Claim C8 -/

/-- Claim C8: with all four bounds absent, `plot_map`'s filtering step
returns the dataset unchanged. -/
theorem C8_filter_identity_no_bounds (df : Table) :
    plot_map_filter ⟨none, none, none, none⟩ df = df := rfl

/-! ### Claim C10 -/

/-- Claim C10: a row with a missing (`NaN`) `lon` (resp. `lat`) is removed by
the filter whenever a corresponding bound is present, but every row of the
input is retained when all four bounds are absent. -/
theorem C10_nan_row_filtering (b : Bounds) (df : Table) (r : Row) :
    (r.lon = none → (b.lon_min ≠ none ∨ b.lon_max ≠ none) →
      r ∉ plot_map_filter b df) ∧
    (r.lat = none → (b.lat_min ≠ none ∨ b.lat_max ≠ none) →
      r ∉ plot_map_filter b df) ∧
    (r ∈ df → r ∈ plot_map_filter ⟨none, none, none, none⟩ df) := by
  rw [plot_map_filter_eq_filter]
  refine ⟨fun hlon hb hmem => ?_, fun hlat hb hmem => ?_, fun hmem => hmem⟩
  · rw [List.mem_filter] at hmem
    have hmask := hmem.2
    unfold boundsMask at hmask
    rcases hb with h | h
    · cases hm : b.lon_min with
      | none => exact h hm
      | some m => simp [hm, hlon, pdGe] at hmask
    · cases hm : b.lon_max with
      | none => exact h hm
      | some m => simp [hm, hlon, pdLe] at hmask
  · rw [List.mem_filter] at hmem
    have hmask := hmem.2
    unfold boundsMask at hmask
    rcases hb with h | h
    · cases hm : b.lat_min with
      | none => exact h hm
      | some m => simp [hm, hlat, pdGe] at hmask
    · cases hm : b.lat_max with
      | none => exact h hm
      | some m => simp [hm, hlat, pdLe] at hmask

/-- Concrete instance of C10: a row with `lon = NaN` is dropped when
`lon_min` is present, and is kept when no bound is supplied. -/
theorem C10_nan_row_filtering_witness :
    ((⟨some 1, none, none, none, "a"⟩ : Row) ∉
      plot_map_filter ⟨some 0, none, none, none⟩
        [⟨some 1, none, none, none, "a"⟩]) ∧
    ((⟨some 1, none, none, none, "a"⟩ : Row) ∈
      plot_map_filter ⟨none, none, none, none⟩
        [⟨some 1, none, none, none, "a"⟩]) :=
  ⟨(C10_nan_row_filtering ⟨some 0, none, none, none⟩
      [⟨some 1, none, none, none, "a"⟩] ⟨some 1, none, none, none, "a"⟩).1
      rfl (Or.inl (by decide)),
   (C10_nan_row_filtering ⟨none, none, none, none⟩
      [⟨some 1, none, none, none, "a"⟩] ⟨some 1, none, none, none, "a"⟩).2.2
      (List.mem_singleton.mpr rfl)⟩

/-! ## Dataset merging (`pd.concat(..., ignore_index=True)`)

`pd.concat` on a list of DataFrames with identical columns stacks their rows
in list order; with `ignore_index=True` the result is indexed `0..Σnᵢ-1`.
Its row-level content is the concatenation of the row lists. -/

/-- Row-level model of `pd.concat(dfs, ignore_index=True)`
(`src/a4/functions.py` line 112, `src/facets_test.py` line 90). -/
def mergeTables {α : Type} : List (List α) → List α
  | [] => []
  | t :: ts => t ++ mergeTables ts

/-- Number of rows contributed by the tables before table `k`. -/
def offsetBefore {α : Type} (ts : List (List α)) (k : ℕ) : ℕ :=
  ((ts.take k).map List.length).sum

theorem mergeTables_length {α : Type} (ts : List (List α)) :
    (mergeTables ts).length = (ts.map List.length).sum := by
  induction ts with
  | nil => rfl
  | cons t ts ih => simp [mergeTables, ih]

theorem mergeTables_getElem {α : Type} (ts : List (List α)) :
    ∀ (k i : ℕ) (t : List α), ts[k]? = some t → i < t.length →
      (mergeTables ts)[offsetBefore ts k + i]? = t[i]? := by
  induction ts with
  | nil => intro k i t hk _; simp at hk
  | cons u ts ih =>
    intro k i t hk hi
    cases k with
    | zero =>
      simp only [List.getElem?_cons_zero, Option.some.injEq] at hk
      subst hk
      simp only [offsetBefore, List.take_zero, List.map_nil, List.sum_nil, Nat.zero_add,
        mergeTables]
      exact List.getElem?_append_left hi
    | succ k =>
      simp only [List.getElem?_cons_succ] at hk
      have hoff : offsetBefore (u :: ts) (k + 1) = u.length + offsetBefore ts k := by
        simp [offsetBefore, List.take_succ_cons]
      rw [hoff, mergeTables.eq_def]
      have hle : u.length ≤ u.length + offsetBefore ts k + i := by omega
      rw [List.getElem?_append_right hle]
      have harith : u.length + offsetBefore ts k + i - u.length = offsetBefore ts k + i := by
        omega
      rw [harith]
      exact ih k i t hk hi

/-! ### Claim C5 -/

/-- Claim C5: merging K per-file tables of sizes n₁..n_K yields one table with
exactly Σnᵢ rows, in file order then within-file order, each row kept
unchanged: the row at position (rows before table k) + i is exactly row i of
table k. -/
theorem C5_merge_order_and_size {α : Type} (ts : List (List α)) :
    (mergeTables ts).length = (ts.map List.length).sum ∧
    ∀ (k i : ℕ) (t : List α), ts[k]? = some t → i < t.length →
      (mergeTables ts)[offsetBefore ts k + i]? = t[i]? :=
  ⟨mergeTables_length ts, mergeTables_getElem ts⟩

/-- Concrete instance of C5 on the tables `[[1,2],[3]]`: total size `3` and
the row following the first table's two rows is the second table's row `3`. -/
theorem C5_merge_order_and_size_witness :
    (mergeTables [[1, 2], [3]] : List ℕ).length = ([[1, 2], [3]].map List.length).sum ∧
    (mergeTables [[1, 2], [3]] : List ℕ)[offsetBefore [[1, 2], [3]] 1 + 0]? = [3][0]? :=
  ⟨(C5_merge_order_and_size [[1, 2], [3]]).1,
   (C5_merge_order_and_size [[1, 2], [3]]).2 1 0 [3] (by decide) (by decide)⟩

/-! ## `read_gpx_file` (`src/a4/functions.py`, lines 27-80)

A GPX file on disk is modelled by how each attempted decoding turns out:
`decodeAt enc` is the outcome of `open(filepath, encoding=enc)` followed by
`gpxpy.parse` (a Unicode decode error, any other raised exception, or a
parsed document), and `lossy` is the outcome of the final
`errors='replace'` attempt.  The `name` field stands for the file's base
name (which carries the extension, so the candidate test is unchanged). -/

/-- A parsed GPX point (gpxpy field vocabulary). -/
structure GpxPoint where
  latitude : ℚ
  longitude : ℚ
  elevation : Option ℚ
  time : Option ℤ
deriving DecidableEq

/-- A parsed GPX document: tracks, each a list of segments, each a list of
points. -/
abbrev GpxDoc := List (List (List GpxPoint))

/-- Outcome of one `open(..., encoding=enc)` + `gpxpy.parse` attempt. -/
inductive DecodeOutcome where
  | unicodeErr : DecodeOutcome
  | raised (e : String) : DecodeOutcome
  | parsed (g : GpxDoc) : DecodeOutcome

/-- Outcome of the lossy `errors='replace'` fallback attempt. -/
inductive LossyOutcome where
  | parsed (g : GpxDoc) : LossyOutcome
  | raised (e : String) : LossyOutcome

/-- The fixed ordered encoding list of `read_gpx_file`. -/
inductive Encoding where
  | utf8 | latin1 | cp1252 | iso8859_1
deriving DecidableEq

/-- `encodings = ['utf-8', 'latin-1', 'cp1252', 'iso-8859-1']`. -/
def encodings : List Encoding :=
  [Encoding.utf8, Encoding.latin1, Encoding.cp1252, Encoding.iso8859_1]

/-- A GPX file as observed through its possible decodings. -/
structure GpxFile where
  name : String
  decodeAt : Encoding → DecodeOutcome
  lossy : LossyOutcome

/-- The nested extraction loop of `read_gpx_file` (lines 69-80): one row per
point, in track / segment / point order, tagged with the file's base name. -/
def gpxToTable (basename : String) (g : GpxDoc) : Table :=
  mergeTables (g.map (fun track =>
    mergeTables (track.map (fun segment =>
      segment.map (fun p =>
        (⟨some p.latitude, some p.longitude, p.elevation, p.time, basename⟩ : Row))))))

/-- The `for encoding in encodings: try ... break; except Unicode...: continue`
loop: the first attempt that does not raise a Unicode decode error decides
(a parsed document, or a propagating non-Unicode exception); `none` means
every encoding failed with a Unicode decode error. -/
def tryEncodings (f : GpxFile) : List Encoding → Option (Except String GpxDoc)
  | [] => none
  | e :: es =>
    match f.decodeAt e with
    | DecodeOutcome.unicodeErr => tryEncodings f es
    | DecodeOutcome.raised s => some (Except.error s)
    | DecodeOutcome.parsed g => some (Except.ok g)

/-- `read_gpx_file`: try the encodings in order; if all raise Unicode decode
errors, fall back to the lossy decode; if even that raises, print
`Failed to read ...` and return an empty DataFrame.  The returned pair is
(printed log lines, DataFrame); `Except.error` is an exception propagating
to the caller. -/
def read_gpx_file (f : GpxFile) : Except String (List String × Table) :=
  match tryEncodings f encodings with
  | some (Except.ok g) => Except.ok ([], gpxToTable f.name g)
  | some (Except.error e) => Except.error e
  | none =>
    match f.lossy with
    | LossyOutcome.parsed g => Except.ok ([], gpxToTable f.name g)
    | LossyOutcome.raised e =>
        Except.ok (["Failed to read " ++ f.name ++ ": " ++ e], [])

theorem tryEncodings_of_first {f : GpxFile} :
    ∀ (L : List Encoding) (i : ℕ) (hi : i < L.length) (g : GpxDoc),
      (∀ j (hj : j < i), f.decodeAt (L.get ⟨j, Nat.lt_trans hj hi⟩) =
        DecodeOutcome.unicodeErr) →
      f.decodeAt (L.get ⟨i, hi⟩) = DecodeOutcome.parsed g →
      tryEncodings f L = some (Except.ok g)
  | [], i, hi, _, _, _ => absurd hi (by simp)
  | e :: es, 0, _, g, _, hfirst => by
      simp only [List.get] at hfirst
      simp [tryEncodings, hfirst]
  | e :: es, i + 1, hi, g, hbefore, hfirst => by
      have h0 : f.decodeAt e = DecodeOutcome.unicodeErr := by
        have := hbefore 0 (Nat.succ_pos i)
        simpa using this
      have ih := tryEncodings_of_first es i (Nat.lt_of_succ_lt_succ hi) g
        (fun j hj => hbefore (j + 1) (Nat.succ_lt_succ hj)) hfirst
      simp [tryEncodings, h0, ih]

theorem tryEncodings_of_all_unicodeErr {f : GpxFile} :
    ∀ L : List Encoding, (∀ e ∈ L, f.decodeAt e = DecodeOutcome.unicodeErr) →
      tryEncodings f L = none
  | [], _ => rfl
  | e :: es, h => by
      have h0 := h e (List.mem_cons_self e es)
      have ih := tryEncodings_of_all_unicodeErr es (fun x hx => h x (List.mem_cons_of_mem e hx))
      simp [tryEncodings, h0, ih]

/-! ### Claim C6 -/

/-- Claim C6: `read_gpx_file` tries the fixed ordered encoding list and uses
the first encoding that parses without a decode error; only when every
listed encoding fails with a decode error does it fall back to the lossy
`errors='replace'` decode; and only when even that fallback raises is the
failure surfaced as a logged warning (with an empty DataFrame returned). -/
theorem C6_encoding_fallback (f : GpxFile) :
    (∀ (i : ℕ) (hi : i < encodings.length) (g : GpxDoc),
        (∀ j (hj : j < i), f.decodeAt (encodings.get ⟨j, Nat.lt_trans hj hi⟩) =
          DecodeOutcome.unicodeErr) →
        f.decodeAt (encodings.get ⟨i, hi⟩) = DecodeOutcome.parsed g →
        read_gpx_file f = Except.ok ([], gpxToTable f.name g)) ∧
    (∀ g : GpxDoc, (∀ e ∈ encodings, f.decodeAt e = DecodeOutcome.unicodeErr) →
        f.lossy = LossyOutcome.parsed g →
        read_gpx_file f = Except.ok ([], gpxToTable f.name g)) ∧
    (∀ s : String, (∀ e ∈ encodings, f.decodeAt e = DecodeOutcome.unicodeErr) →
        f.lossy = LossyOutcome.raised s →
        read_gpx_file f = Except.ok (["Failed to read " ++ f.name ++ ": " ++ s], [])) := by
  refine ⟨fun i hi g hbefore hfirst => ?_, fun g hall hlossy => ?_, fun s hall hlossy => ?_⟩
  · rw [read_gpx_file, tryEncodings_of_first encodings i hi g hbefore hfirst]
  · rw [read_gpx_file, tryEncodings_of_all_unicodeErr encodings hall, hlossy]
  · rw [read_gpx_file, tryEncodings_of_all_unicodeErr encodings hall, hlossy]

/-- A sample GPX document with one track, one segment, one point. -/
def demoDoc : GpxDoc := [[[⟨47, 13, some 400, some 0⟩]]]

/-- A sample file whose first encoding raises a Unicode decode error and
whose second encoding parses. -/
def demoSecondEncodingFile : GpxFile where
  name := "demo.gpx"
  decodeAt := fun e =>
    match e with
    | Encoding.latin1 => DecodeOutcome.parsed demoDoc
    | _ => DecodeOutcome.unicodeErr
  lossy := LossyOutcome.raised "unused"

/-- Concrete instance of C6: with `utf-8` failing and `latin-1` parsing,
`read_gpx_file` returns the `latin-1` parse (first conjunct at index 1). -/
theorem C6_encoding_fallback_witness :
    read_gpx_file demoSecondEncodingFile =
      Except.ok ([], gpxToTable demoSecondEncodingFile.name demoDoc) :=
  (C6_encoding_fallback demoSecondEncodingFile).1 1 (by decide) demoDoc
    (by
      intro j hj
      interval_cases j
      rfl)
    rfl

/-! ## The module-level file loop of `src/a4/functions.py` (lines 92-112)

For every directory entry ending in `.gpx`, `read_gpx_file` is called inside
`try/except`; a non-empty DataFrame is appended to `df_list`, an exception is
printed and the file skipped.  After the loop, an empty `df_list` prints one
message and exits; otherwise the tables are concatenated into `df_all`. -/

/-- Whether `read_gpx_file` on this file either raises or yields an empty
DataFrame (the two ways a candidate file contributes nothing). -/
def readFailsOrEmpty (f : GpxFile) : Prop :=
  (∃ e, read_gpx_file f = Except.error e) ∨
  (∃ logs, read_gpx_file f = Except.ok (logs, []))

/-- Python's `file.endswith(".gpx")` candidate test, at the level of the
name's character sequence. -/
def endsWithGpx (s : String) : Bool := (".gpx".data).isSuffixOf s.data

/-- The file loop: returns the printed log lines and `df_list` in processing
order. -/
def processEntries : List GpxFile → List String × List Table
  | [] => ([], [])
  | f :: fs =>
    let rest := processEntries fs
    if endsWithGpx f.name then
      match read_gpx_file f with
      | Except.ok (logs, df) =>
          if df = [] then (logs ++ rest.1, rest.2)
          else (logs ++ rest.1, df :: rest.2)
      | Except.error e =>
          (("Error processing file " ++ f.name ++ ": " ++ e) :: rest.1, rest.2)
    else rest

/-- Observable outcome of one run of the script's ingestion part. -/
inductive RunOutcome where
  | exitMsg (msg : String) : RunOutcome
  | proceed (df_all : List Table) : RunOutcome
deriving DecidableEq

/-- The run up to the `pd.concat`: exit with the single message when
`df_list` is empty, otherwise proceed with the collected tables. -/
def runPipeline (entries : List GpxFile) : RunOutcome :=
  let p := processEntries entries
  if p.2 = [] then RunOutcome.exitMsg "No GPX files found in the specified directory!"
  else RunOutcome.proceed p.2

theorem processEntries_append (a b : List GpxFile) :
    processEntries (a ++ b) =
      ((processEntries a).1 ++ (processEntries b).1,
       (processEntries a).2 ++ (processEntries b).2) := by
  induction a with
  | nil => simp [processEntries]
  | cons f fs ih =>
    by_cases hg : endsWithGpx f.name
    · cases hr : read_gpx_file f with
      | ok p =>
        cases p with
        | mk logs df =>
          by_cases hdf : df = []
          · simp [processEntries, hg, hr, hdf, ih]
          · simp [processEntries, hg, hr, hdf, ih]
      | error e => simp [processEntries, hg, hr, ih]
    · simp [processEntries, hg, ih]

/-! ### Claim C3 -/

/-- A candidate file for which every decoding attempt raises a (non-Unicode)
parse exception, so that `read_gpx_file` propagates the exception and the
module loop skips the file. -/
def demoFailingGpx : GpxFile where
  name := "bad.gpx"
  decodeAt := fun _ => DecodeOutcome.raised "parse error"
  lossy := LossyOutcome.raised "parse error"

/-- Counterexample to claim C3: a run that finds no candidate files and a run
whose single candidate file fails to parse produce the *identical* outcome,
with one and the same message — the two conditions are not reported with
distinct messages and the caller cannot distinguish them. -/
theorem C3_counterexample_same_message :
    endsWithGpx demoFailingGpx.name = true ∧
    read_gpx_file demoFailingGpx = Except.error "parse error" ∧
    runPipeline [demoFailingGpx] = runPipeline [] ∧
    runPipeline [] =
      RunOutcome.exitMsg "No GPX files found in the specified directory!" :=
  ⟨rfl, rfl, rfl, rfl⟩

theorem processEntries_snd_nil :
    ∀ entries : List GpxFile,
      (∀ f ∈ entries, endsWithGpx f.name = false ∨ readFailsOrEmpty f) →
      (processEntries entries).2 = []
  | [], _ => rfl
  | f :: fs, h => by
    have hfs := processEntries_snd_nil fs (fun x hx => h x (List.mem_cons_of_mem f hx))
    rcases h f (List.mem_cons_self f fs) with hng | hfe
    · simp [processEntries, hng, hfs]
    · rcases hfe with ⟨e, he⟩ | ⟨logs, hl⟩
      · by_cases hg : endsWithGpx f.name <;> simp [processEntries, hg, he, hfs]
      · by_cases hg : endsWithGpx f.name <;> simp [processEntries, hg, hl, hfs]

/-- Claim C3 as amended: when the run finds no candidate files, and when every
candidate file fails to parse or yields an empty table, the run terminates
early in both cases (it never reaches the plot), but both conditions are
reported with one and the same message, so the caller cannot distinguish
them. -/
theorem C3_amended_early_exit_shared_message (entries : List GpxFile)
    (h : ∀ f ∈ entries, endsWithGpx f.name = false ∨ readFailsOrEmpty f) :
    runPipeline entries =
      RunOutcome.exitMsg "No GPX files found in the specified directory!" := by
  have hempty := processEntries_snd_nil entries h
  simp [runPipeline, hempty]

/-- Concrete instance of the amended C3: the run whose only candidate file
fails to parse exits early with the shared message. -/
theorem C3_amended_early_exit_shared_message_witness :
    runPipeline [demoFailingGpx] =
      RunOutcome.exitMsg "No GPX files found in the specified directory!" :=
  C3_amended_early_exit_shared_message [demoFailingGpx]
    (by
      intro f hf
      rw [List.mem_singleton] at hf
      subst hf
      exact Or.inr (Or.inl ⟨"parse error", rfl⟩))

/-! ### Claim C4 -/

/-- Claim C4: a parse error in any single candidate file is caught, a log line
carrying the file's identity and the error description is emitted in place,
that file contributes no table, and the tables and logs of every other file
(before and after it) are exactly those of the batch without it. -/
theorem C4_parse_failure_skipped (pre suf : List GpxFile) (f : GpxFile) (e : String)
    (hgpx : endsWithGpx f.name = true)
    (herr : read_gpx_file f = Except.error e) :
    processEntries (pre ++ f :: suf) =
      ((processEntries pre).1 ++
        ("Error processing file " ++ f.name ++ ": " ++ e) :: (processEntries suf).1,
       (processEntries pre).2 ++ (processEntries suf).2) := by
  rw [processEntries_append pre (f :: suf)]
  have hstep : processEntries (f :: suf) =
      (("Error processing file " ++ f.name ++ ": " ++ e) :: (processEntries suf).1,
       (processEntries suf).2) := by
    simp [processEntries, hgpx, herr]
  rw [hstep]

/-- Concrete instance of C4: the failing file is logged and skipped while the
parsable file after it is still processed. -/
theorem C4_parse_failure_skipped_witness :
    processEntries ([] ++ demoFailingGpx :: [demoSecondEncodingFile]) =
      ((processEntries []).1 ++
        ("Error processing file " ++ demoFailingGpx.name ++ ": " ++ "parse error") ::
          (processEntries [demoSecondEncodingFile]).1,
       (processEntries []).2 ++ (processEntries [demoSecondEncodingFile]).2) :=
  C4_parse_failure_skipped [] [demoSecondEncodingFile] demoFailingGpx "parse error" rfl rfl

/-! ## Claim C9: frame property of the filter

To state non-mutation at all, DataFrames are given identities: a heap is a
list of tables and a DataFrame value is an index into it.  Pandas boolean-mask
selection `df[mask]` allocates a *new* DataFrame holding the selected rows and
leaves every existing DataFrame untouched; `df = df[...]` inside `plot_map`
only rebinds the local reference. -/

/-- A heap of allocated DataFrames. -/
abbrev Heap := List Table

/-- The table a reference designates (unallocated references read as empty). -/
def tableAt (h : Heap) (r : ℕ) : Table := (h[r]?).getD []

/-- `df[mask]`: allocate a fresh table with the rows of `r` passing `p` and
return a reference to it. -/
def maskSelect (h : Heap) (r : ℕ) (p : Row → Bool) : Heap × ℕ :=
  (h ++ [(tableAt h r).filter p], h.length)

/-- One conditional `if bound is not None: df = df[...]` statement of
`plot_map`, at heap level. -/
def heapFilterStep (s : Heap × ℕ) (bound : Option ℚ) (test : ℚ → Row → Bool) :
    Heap × ℕ :=
  match bound with
  | none => s
  | some m => maskSelect s.1 s.2 (test m)

/-- The filtering prefix of `plot_map` at heap level: the four conditional
selections in source order, threading the local reference `df`. -/
def plot_map_filterH (h : Heap) (r : ℕ) (b : Bounds) : Heap × ℕ :=
  heapFilterStep
    (heapFilterStep
      (heapFilterStep
        (heapFilterStep (h, r) b.lon_min (fun m row => pdGe row.lon m))
        b.lon_max (fun m row => pdLe row.lon m))
      b.lat_min (fun m row => pdGe row.lat m))
    b.lat_max (fun m row => pdLe row.lat m)

theorem tableAt_append_lt (h : Heap) (t : Table) (i : ℕ) (hi : i < h.length) :
    tableAt (h ++ [t]) i = tableAt h i := by
  unfold tableAt
  rw [List.getElem?_append_left hi]

theorem tableAt_append_len (h : Heap) (t : Table) :
    tableAt (h ++ [t]) h.length = t := by
  unfold tableAt
  rw [List.getElem?_append_right (Nat.le_refl _)]
  simp

theorem heapFilterStep_preserves (s : Heap × ℕ) (bound : Option ℚ)
    (test : ℚ → Row → Bool) :
    (∀ i, i < s.1.length → tableAt (heapFilterStep s bound test).1 i = tableAt s.1 i) ∧
    s.1.length ≤ (heapFilterStep s bound test).1.length ∧
    tableAt (heapFilterStep s bound test).1 (heapFilterStep s bound test).2 =
      filterStep (tableAt s.1 s.2) bound test := by
  cases bound with
  | none => exact ⟨fun i _ => rfl, Nat.le_refl _, rfl⟩
  | some m =>
    refine ⟨fun i hi => tableAt_append_lt s.1 _ i hi, by simp [heapFilterStep, maskSelect], ?_⟩
    exact tableAt_append_len s.1 _

/-- Claim C9: running `plot_map`'s filtering on a heap leaves every DataFrame
that existed before the call unchanged (in particular the input: its rows and
their order are untouched), and the reference it ends up holding designates
exactly the filtered table. -/
theorem C9_filter_does_not_mutate (h : Heap) (r : ℕ) (b : Bounds) :
    (∀ i, i < h.length → tableAt (plot_map_filterH h r b).1 i = tableAt h i) ∧
    tableAt (plot_map_filterH h r b).1 (plot_map_filterH h r b).2 =
      plot_map_filter b (tableAt h r) := by
  have step : ∀ (s : Heap × ℕ) (X : Table) (bound : Option ℚ) (test : ℚ → Row → Bool),
      h.length ≤ s.1.length →
      (∀ i, i < h.length → tableAt s.1 i = tableAt h i) →
      tableAt s.1 s.2 = X →
      (h.length ≤ (heapFilterStep s bound test).1.length ∧
       (∀ i, i < h.length → tableAt (heapFilterStep s bound test).1 i = tableAt h i) ∧
       tableAt (heapFilterStep s bound test).1 (heapFilterStep s bound test).2 =
         filterStep X bound test) := by
    intro s X bound test hlen hpres hX
    obtain ⟨hp, hl, ht⟩ := heapFilterStep_preserves s bound test
    refine ⟨Nat.le_trans hlen hl, fun i hi => ?_, ?_⟩
    · rw [hp i (Nat.lt_of_lt_of_le hi hlen), hpres i hi]
    · rw [ht, hX]
  obtain ⟨l1, p1, t1⟩ := step (h, r) (tableAt h r) b.lon_min (fun m row => pdGe row.lon m)
    (Nat.le_refl _) (fun i _ => rfl) rfl
  obtain ⟨l2, p2, t2⟩ := step _ _ b.lon_max (fun m row => pdLe row.lon m) l1 p1 t1
  obtain ⟨l3, p3, t3⟩ := step _ _ b.lat_min (fun m row => pdGe row.lat m) l2 p2 t2
  obtain ⟨l4, p4, t4⟩ := step _ _ b.lat_max (fun m row => pdLe row.lat m) l3 p3 t3
  exact ⟨p4, t4⟩

/-- Concrete instance of C9: filtering a one-table heap leaves the input table
in place and the result reference holds the filtered table. -/
theorem C9_filter_does_not_mutate_witness :
    tableAt (plot_map_filterH [[⟨some 2, some 3, none, none, "a"⟩]] 0
        ⟨some 7, none, none, none⟩).1 0 =
      tableAt [[⟨some 2, some 3, none, none, "a"⟩]] 0 ∧
    tableAt (plot_map_filterH [[⟨some 2, some 3, none, none, "a"⟩]] 0
        ⟨some 7, none, none, none⟩).1
      (plot_map_filterH [[⟨some 2, some 3, none, none, "a"⟩]] 0
        ⟨some 7, none, none, none⟩).2 =
      plot_map_filter ⟨some 7, none, none, none⟩
        (tableAt [[⟨some 2, some 3, none, none, "a"⟩]] 0) :=
  ⟨(C9_filter_does_not_mutate [[⟨some 2, some 3, none, none, "a"⟩]] 0
      ⟨some 7, none, none, none⟩).1 0 (by decide),
   (C9_filter_does_not_mutate [[⟨some 2, some 3, none, none, "a"⟩]] 0
      ⟨some 7, none, none, none⟩).2⟩

/-! ## Cumulative distance in `src/facets_test.py`

The GPX branch (lines 33-47) appends to parallel lists per segment: for a
nonempty segment it sets `x0, y0, d0` to the segment's first point and `0`,
then for every point of the segment emits
`d = d0 + sqrt((x - x0)**2 + (y - y0)**2)` and shifts `x0, y0, d0`.
The FIT branch (lines 62-73) runs the same loop once over the whole file,
seeding from the file's first row.  Only the derived `dist` list is modelled
here; `math.sqrt` on floats is modelled as `Real.sqrt`. -/

/-- One track point as used by the distance loop. -/
structure FPoint where
  longitude : ℝ
  latitude : ℝ
  elevation : Option ℝ
  time : Option ℤ

/-- The shared accumulation loop: given the running `x0, y0, d0`, emit one
cumulative distance per remaining point. -/
noncomputable def distLoop (x0 y0 d0 : ℝ) : List FPoint → List ℝ
  | [] => []
  | p :: ps =>
    (d0 + Real.sqrt ((p.longitude - x0) ^ 2 + (p.latitude - y0) ^ 2)) ::
      distLoop p.longitude p.latitude
        (d0 + Real.sqrt ((p.longitude - x0) ^ 2 + (p.latitude - y0) ^ 2)) ps

/-- `dist` values contributed by one GPX segment: empty segments are skipped,
a nonempty segment seeds the loop with its own first point and `d0 = 0`. -/
noncomputable def segmentDists : List FPoint → List ℝ
  | [] => []
  | p :: ps => distLoop p.longitude p.latitude 0 (p :: ps)

/-- The `dist` column of one GPX file: tracks, then segments, in order. -/
noncomputable def gpxFileDists (tracks : List (List (List FPoint))) : List ℝ :=
  mergeTables (tracks.map (fun segs => mergeTables (segs.map segmentDists)))

/-- The `dist` column of one FIT file: the same loop seeded once from the
file's first row. -/
noncomputable def fitDists : List FPoint → List ℝ
  | [] => []
  | r :: rs => distLoop r.longitude r.latitude 0 (r :: rs)

theorem distLoop_length (pts : List FPoint) :
    ∀ x0 y0 d0 : ℝ, (distLoop x0 y0 d0 pts).length = pts.length := by
  induction pts with
  | nil => intro x0 y0 d0; rfl
  | cons p ps ih => intro x0 y0 d0; simp [distLoop, ih]

theorem distLoop_succ (pts : List FPoint) :
    ∀ (x0 y0 d0 : ℝ) (i : ℕ) (q q' : FPoint) (d : ℝ),
      pts[i]? = some q → pts[i + 1]? = some q' →
      (distLoop x0 y0 d0 pts)[i]? = some d →
      (distLoop x0 y0 d0 pts)[i + 1]? =
        some (d + Real.sqrt ((q'.longitude - q.longitude) ^ 2 +
          (q'.latitude - q.latitude) ^ 2)) := by
  induction pts with
  | nil => intro x0 y0 d0 i q q' d hq _ _; simp at hq
  | cons p ps ih =>
    intro x0 y0 d0 i q q' d hq hq' hd
    cases i with
    | zero =>
      simp only [List.getElem?_cons_zero, Option.some.injEq] at hq
      subst hq
      simp only [distLoop, List.getElem?_cons_zero, Option.some.injEq] at hd
      cases ps with
      | nil => simp at hq'
      | cons r rs =>
        simp only [List.getElem?_cons_succ, List.getElem?_cons_zero,
          Option.some.injEq] at hq'
        subst hq'
        simp only [distLoop, List.getElem?_cons_succ, List.getElem?_cons_zero,
          Option.some.injEq]
        rw [← hd]
    | succ n =>
      simp only [List.getElem?_cons_succ] at hq hq'
      simp only [distLoop, List.getElem?_cons_succ] at hd ⊢
      exact ih _ _ _ n q q' d hq hq' hd

theorem distLoop_chain (pts : List FPoint) :
    ∀ x0 y0 d0 : ℝ, List.Chain' (· ≤ ·) (distLoop x0 y0 d0 pts) ∧
      ∀ d ∈ distLoop x0 y0 d0 pts, d0 ≤ d := by
  induction pts with
  | nil => intro x0 y0 d0; exact ⟨List.chain'_nil, by simp [distLoop]⟩
  | cons p ps ih =>
    intro x0 y0 d0
    obtain ⟨hchain, hmem⟩ := ih p.longitude p.latitude
      (d0 + Real.sqrt ((p.longitude - x0) ^ 2 + (p.latitude - y0) ^ 2))
    have hd0 : d0 ≤ d0 + Real.sqrt ((p.longitude - x0) ^ 2 + (p.latitude - y0) ^ 2) :=
      le_add_of_nonneg_right (Real.sqrt_nonneg _)
    constructor
    · rw [distLoop, List.chain'_cons']
      exact ⟨fun y hy => hmem y (List.mem_of_mem_head? hy), hchain⟩
    · intro d hdmem
      rw [distLoop, List.mem_cons] at hdmem
      rcases hdmem with h | h
      · exact h ▸ hd0
      · exact le_trans hd0 (hmem d h)

theorem segmentDists_head (p : FPoint) (ps : List FPoint) :
    (segmentDists (p :: ps))[0]? = some 0 := by
  simp [segmentDists, distLoop, sub_self]

/-! ### Claim C1 -/

/-- A single-file input whose one track holds two segments: the first with
points `(0,0), (1,0)`, the second with point `(5,0)`. -/
def demoTwoSegmentFile : List (List (List FPoint)) :=
  [[[⟨0, 0, none, none⟩, ⟨1, 0, none, none⟩], [⟨5, 0, none, none⟩]]]

/-- Counterexample to claim C1: for the single two-segment file above the
computed `dist` sequence is `[0, 1, 0]` — the accumulation restarts at the
second segment instead of adding the distance from `(1,0)` to `(5,0)` — so
the `dist` sequence of this single-file input is not non-decreasing. -/
theorem C1_counterexample_segment_reset :
    gpxFileDists demoTwoSegmentFile = [0, 1, 0] ∧
    ¬ List.Chain' (· ≤ ·) (gpxFileDists demoTwoSegmentFile) := by
  have hd : gpxFileDists demoTwoSegmentFile = [0, 1, 0] := by
    norm_num [gpxFileDists, demoTwoSegmentFile, segmentDists, distLoop, mergeTables,
      Real.sqrt_zero, Real.sqrt_one]
  refine ⟨hd, ?_⟩
  rw [hd]
  intro hchain
  rcases hchain with _ | ⟨_, hchain⟩
  rcases hchain with _ | ⟨hle, _⟩
  norm_num at hle

/-- Claim C1 as amended: the cumulative distance restarts at every GPX
segment: within each nonempty segment the first emitted point has `dist = 0`
and each subsequent point has `dist` = previous `dist` + planar Euclidean
distance between the consecutive `(lon, lat)` pairs, so the `dist` sequence
is non-decreasing *within each segment*; a single-file input whose GPX file
has one segment yields exactly that segment's sequence, and the FIT branch
runs the identical accumulation once over the whole file. -/
theorem C1_amended_dist_resets_per_segment :
    (∀ (p : FPoint) (ps : List FPoint),
      (segmentDists (p :: ps)).length = (p :: ps).length ∧
      (segmentDists (p :: ps))[0]? = some 0 ∧
      (∀ (i : ℕ) (q q' : FPoint) (d : ℝ),
        (p :: ps)[i]? = some q → (p :: ps)[i + 1]? = some q' →
        (segmentDists (p :: ps))[i]? = some d →
        (segmentDists (p :: ps))[i + 1]? =
          some (d + Real.sqrt ((q'.longitude - q.longitude) ^ 2 +
            (q'.latitude - q.latitude) ^ 2))) ∧
      List.Chain' (· ≤ ·) (segmentDists (p :: ps))) ∧
    (∀ (p : FPoint) (ps : List FPoint),
      gpxFileDists [[p :: ps]] = segmentDists (p :: ps) ∧
      fitDists (p :: ps) = segmentDists (p :: ps)) := by
  constructor
  · intro p ps
    refine ⟨distLoop_length _ _ _ _, segmentDists_head p ps, ?_, (distLoop_chain _ _ _ _).1⟩
    intro i q q' d hq hq' hd
    exact distLoop_succ (p :: ps) _ _ _ i q q' d hq hq' hd
  · intro p ps
    constructor
    · simp [gpxFileDists, mergeTables]
    · rfl

/-- Concrete instance of the amended C1: on the segment `[(0,0), (1,0)]` the
second `dist` equals the first plus the planar distance, and the segment's
`dist` sequence is non-decreasing. -/
theorem C1_amended_dist_resets_per_segment_witness :
    (segmentDists [⟨0, 0, none, none⟩, ⟨1, 0, none, none⟩])[0 + 1]? =
      some ((0 + Real.sqrt (((0:ℝ) - 0) ^ 2 + ((0:ℝ) - 0) ^ 2)) +
        Real.sqrt (((1:ℝ) - 0) ^ 2 + ((0:ℝ) - 0) ^ 2)) ∧
    List.Chain' (· ≤ ·) (segmentDists [⟨0, 0, none, none⟩, ⟨1, 0, none, none⟩]) :=
  ⟨(C1_amended_dist_resets_per_segment.1 ⟨0, 0, none, none⟩ [⟨1, 0, none, none⟩]).2.2.1 0
      ⟨0, 0, none, none⟩ ⟨1, 0, none, none⟩
      (0 + Real.sqrt (((0:ℝ) - 0) ^ 2 + ((0:ℝ) - 0) ^ 2)) rfl rfl rfl,
   (C1_amended_dist_resets_per_segment.1 ⟨0, 0, none, none⟩ [⟨1, 0, none, none⟩]).2.2.2⟩
